import Mathlib

/-!
A shallow embedding of `imagesync.go` (package `imagesync`, repository
trim21/imagesync) and proofs about its sync pipeline.

External collaborators (the containers/image library, the filesystem, the
network) are abstracted into an `Env` record of oracle results; the control
flow of `DetectAndCopyImage`, `copyRepository`, `copyImage`, `hasTag` and
`subtract` is translated statement by statement from `src/imagesync.go`.
The concurrent errgroup worker pool of `copyRepository` is modelled as a
sequential drain of the tag queue: the claims examined here only concern
runs where either no worker is started, every per-tag copy succeeds, or the
plan is empty, and in each of those cases the set of attempted copies and
the aggregate error are independent of scheduling order.
-/

namespace Imagesync

/-- The CLI options struct (`CliInput`, imagesync.go lines 31-46).
`MaxConcurrentTags` is a Go `int`, so it is modelled as `Int` to keep
negative configured values representable. -/
structure CliInput where
  Source : String
  SourceStrictTLS : Bool
  Destination : String
  DestinationStrictTLS : Bool
  TagsPattern : String
  SkipTagsPattern : String
  SkipTags : String
  Overwrite : Bool
  MaxConcurrentTags : Int
deriving Repr

/-- The slice of `types.SystemContext` that `DetectAndCopyImage` sets
(imagesync.go lines 106 and 109). -/
structure SystemContext where
  DockerInsecureSkipTLSVerify : Bool
deriving Repr, DecidableEq

/-- The slice of `copy.Options` that carries the per-side TLS contexts
(imagesync.go lines 101-110); `ReportWriter` and `ImageListSelection` have
no bearing on the claims and are omitted. -/
structure CopyOptions where
  DestinationCtx : Option SystemContext
  SourceCtx : Option SystemContext
deriving Repr, DecidableEq

/-- Construction of `copy.Options` from the CLI input, translated from
imagesync.go lines 101-110: each side gets an insecure-skip-TLS context
exactly when its strict-TLS flag is off. -/
def mkCopyOptions (c : CliInput) : CopyOptions :=
  { DestinationCtx := if !c.DestinationStrictTLS then some { DockerInsecureSkipTLSVerify := true } else none
    SourceCtx := if !c.SourceStrictTLS then some { DockerInsecureSkipTLSVerify := true } else none }

/-- Identity of the two repository references built in `DetectAndCopyImage`:
`srcRef` (from `c.Source`, line 140) and `destRef` (from `c.Destination`,
line 95). -/
inductive RefId where
  | src
  | dest
deriving Repr, DecidableEq

/-- One invocation of `copyImage` (imagesync.go line 257), tagged by the
call site that performed it. -/
inductive CopyCall where
  | ociLayout
  | ociArchive
  | dockerArchive
  | singleImage (destStr srcStr : String)
  | tagCopy (tag : String)
deriving Repr, DecidableEq

/-- The way a run of `DetectAndCopyImage` (or of `copyRepository`) ends:
returning `nil`, returning a non-nil error, or terminating the whole
process via `os.Exit` (imagesync.go line 209). -/
inductive Outcome where
  | ok
  | err (msg : String)
  | exited (code : Nat)
deriving Repr, DecidableEq

/-- Result of a modelled run: how it ended, which `copyImage` calls were
attempted, and which `logrus.Info` lines were emitted. -/
structure RunResult where
  outcome : Outcome
  copies : List CopyCall
  logs : List String
deriving Repr, DecidableEq

/-- Oracle results of all external calls made by one run.

`destParse` / `srcParse` give the `DockerReference().String()` form of the
destination / source reference when `docker.ParseReference` succeeds, and
`none` when it fails. `statSource` is `os.Stat(c.Source)`: `none` when the
stat errors, `some isDir` otherwise. `listTags` is
`docker.GetRepositoryTags` at each of the two repository references.
`compileRegex` is `regexp.Compile`: `none` on a compile error, otherwise
the match predicate. The remaining fields are the success of the
corresponding parse or `copyImage` call. -/
structure Env where
  destParse : Option String
  statSource : Option Bool
  ociLayoutParseOk : Bool
  ociLayoutCopyOk : Bool
  ociArchiveCopyOk : Bool
  dockerArchiveParseOk : Bool
  dockerArchiveCopyOk : Bool
  srcParse : Option String
  listTags : RefId → Option (List String)
  compileRegex : String → Option (String → Bool)
  copySingleOk : Bool
  parseDestTagOk : String → Bool
  parseSrcTagOk : String → Bool
  copyTagOk : String → Bool

/-- Byte-order test on characters, the order `slices.Sort` uses on the
(ASCII) tag strings. -/
def charListLe : List Char → List Char → Bool
  | [], _ => true
  | _ :: _, [] => false
  | a :: as, b :: bs =>
    if a.toNat < b.toNat then true
    else if b.toNat < a.toNat then false
    else charListLe as bs

/-- Lexicographic `≤` on strings, as `slices.Sort` compares Go strings. -/
def strLe (a b : String) : Bool :=
  charListLe a.toList b.toList

/-- `strings.HasSuffix(s, p)`: `s` ends with `p`. -/
def strEndsWith (s p : String) : Bool :=
  p.toList.isSuffixOf s.toList

/-- Splitting a character list at a separator; `splitOnChar sep []` is
`[[]]`, matching `strings.Split("", sep) = [""]`. -/
def splitOnChar (sep : Char) : List Char → List (List Char)
  | [] => [[]]
  | ch :: rest =>
    let r := splitOnChar sep rest
    if ch == sep then [] :: r
    else
      match r with
      | [] => [[ch]]
      | g :: gs => (ch :: g) :: gs

/-- `strings.Split(s, sep)` for a one-character separator. -/
def splitString (s : String) (sep : Char) : List String :=
  (splitOnChar sep s.toList).map String.mk

/-- Whether a string contains a given character. -/
def containsChar (s : String) (ch : Char) : Bool :=
  s.toList.contains ch

/-- String concatenation, written out over the character lists so that the
kernel can evaluate it on concrete inputs. -/
def strAppend (a b : String) : String :=
  String.mk (a.toList ++ b.toList)

/-- Model of the external `docker.ParseReference("//" + ref)` composed with
`DockerReference().String()` (containers/image docker transport): the
reference is normalized by `reference.ParseNormalizedNamed` — a name
without a registry domain (no first component containing a dot or colon
and not equal to `localhost`) is prefixed with `docker.io/`, and a bare
single-component name additionally with `library/` — and then by
`reference.TagNameOnly`, which appends `:latest` exactly when the
reference carries no explicit tag. Validation of malformed references is
not modelled; the inputs used below are all well-formed. -/
def dockerNormalize (ref : String) : String :=
  let parts := splitString ref '/'
  let head := parts.headD ""
  let hasDomain :=
    decide (parts.length > 1) &&
      (containsChar head '.' || containsChar head ':' || head == "localhost")
  let named :=
    if hasDomain then ref
    else if parts.length == 1 then strAppend "docker.io/library/" ref
    else strAppend "docker.io/" ref
  let lastPart := (splitString named '/').getLastD ""
  if containsChar lastPart ':' then named else strAppend named ":latest"

def msgParsingDestRef : String := "parsing destination ref"
def msgParsingSourceOciRef : String := "parsing source oci ref"
def msgCopyOciLayout : String := "copy oci layout"
def msgParsingDockerArchiveRef : String := "parsing source docker-archive ref"
def msgCopyDockerArchive : String := "copy docker-archive layout"
def msgParsingSourceDockerRef : String := "parsing source docker ref"
def msgCopyTag : String := "copy tag"
def msgCopyRepository : String := "copy repository"
def msgGettingSourceTags : String := "getting source tags"
def msgInvalidRegexp : String := "is not valid regexp"
def msgAlreadySynced : String := "Image in repositories are already synced"
def msgStartingSync : String := "Starting image sync"
def msgSyncCompleted : String := "Image(s) sync completed."

/-- `hasTag` (imagesync.go lines 271-273):
`strings.HasSuffix(imageRef.DockerReference().String(), ref)`, i.e. the
normalized string form of the parsed reference ends with the original
reference string. `dockerRefStr` stands for
`imageRef.DockerReference().String()`. -/
def hasTag (ref : String) (dockerRefStr : String) : Bool :=
  strEndsWith dockerRefStr ref

/-- `subtract` (imagesync.go lines 275-284): the elements of `ts1` not
contained in `ts2`, in the order of `ts1`. -/
def subtract (ts1 : List String) (ts2 : List String) : List String :=
  ts1.filter (fun term => !(ts2.contains term))

/-- Insertion step of the sort model. -/
def insertSorted (x : String) : List String → List String
  | [] => [x]
  | y :: ys => if strLe x y then x :: y :: ys else y :: insertSorted x ys

/-- Model of `slices.Sort(srcTags)` (imagesync.go line 173): sort the tag
list ascending. -/
def sortTags (l : List String) : List String :=
  l.foldr insertSorted []

/-- The three filtering statements of `copyRepository`
(imagesync.go lines 175-197), translated with their exact control flow:
the skip-tag subtraction runs only when `c.SkipTags` is non-empty
(lines 176-178), then the include pattern keeps matching tags when
`c.TagsPattern` is non-empty (lines 181-188, failing on a bad regex), then
the exclude pattern removes matching tags when `c.SkipTagsPattern` is
non-empty (lines 191-197, failing on a bad regex). -/
def applyFilters (env : Env) (c : CliInput) (tags0 : List String) : Except String (List String) :=
  let tags1 := if c.SkipTags ≠ "" then subtract tags0 (splitString c.SkipTags ',') else tags0
  if c.TagsPattern ≠ "" then
    match env.compileRegex c.TagsPattern with
    | none => .error msgInvalidRegexp
    | some re =>
      let tags2 := tags1.filter (fun item => re item)
      if c.SkipTagsPattern ≠ "" then
        match env.compileRegex c.SkipTagsPattern with
        | none => .error msgInvalidRegexp
        | some re2 => .ok (tags2.filter (fun item => !(re2 item)))
      else .ok tags2
  else
    if c.SkipTagsPattern ≠ "" then
      match env.compileRegex c.SkipTagsPattern with
      | none => .error msgInvalidRegexp
      | some re2 => .ok (tags1.filter (fun item => !(re2 item)))
    else .ok tags1

/-- The plan computation of `copyRepository` (imagesync.go lines 168-205):
list the tags at the reference passed as `srcRepository`, sort and filter
them, then — unless `c.Overwrite` is set or listing the tags at the
reference passed as `destRepository` failed — subtract the destination
listing. A source-listing failure or a regex error aborts with that
error. -/
def planTags (env : Env) (c : CliInput) (destRepository srcRepository : RefId) :
    Except String (List String) :=
  match env.listTags srcRepository with
  | none => .error msgGettingSourceTags
  | some srcTagsRaw =>
    match applyFilters env c (sortTags srcTagsRaw) with
    | .error e => .error e
    | .ok srcTags =>
      .ok (match c.Overwrite, env.listTags destRepository with
           | true, _ => srcTags
           | false, none => srcTags
           | false, some destTags => subtract srcTags destTags)

/-- One worker's loop body (imagesync.go lines 225-243) applied to the
whole queue: parse the destination and source per-tag references, then
attempt `copyImage`; the first error stops the drain. The per-tag copy is
recorded whether it succeeds or fails. -/
def runWorkerLoop (env : Env) : List String → Outcome × List CopyCall
  | [] => (.ok, [])
  | tag :: rest =>
    if !(env.parseDestTagOk tag) then (.err msgCopyRepository, [])
    else if !(env.parseSrcTagOk tag) then (.err msgCopyRepository, [])
    else if env.copyTagOk tag then
      let r := runWorkerLoop env rest
      (r.1, CopyCall.tagCopy tag :: r.2)
    else (.err msgCopyRepository, [CopyCall.tagCopy tag])

/-- `numberOfConcurrentTags` (imagesync.go lines 215-218):
`c.MaxConcurrentTags`, lowered to `len(tags)` when the plan is shorter. -/
def numberOfConcurrentTags (maxConcurrent : Int) (planLen : Nat) : Int :=
  if (planLen : Int) < maxConcurrent then (planLen : Int) else maxConcurrent

/-- The number of workers the loop `for i := 0; i < n; i++` actually
starts (imagesync.go line 224): `n` when positive, otherwise none. -/
def startedWorkers (n : Int) : Nat :=
  n.toNat

/-- The errgroup pool of `copyRepository` (imagesync.go lines 222-254),
modelled sequentially. With no worker started, the producer goroutine
fills the buffered channel (capacity `len(tags)`), closes it and returns
`nil`, so `wg.Wait()` yields `nil` with no copy attempted. With at least
one worker the queue is drained; the claims below only touch runs where
every per-tag copy succeeds, for which the scheduling order is
immaterial. -/
def runScheduler (env : Env) (workers : Int) (plan : List String) : Outcome × List CopyCall :=
  if workers ≤ 0 then (.ok, [])
  else runWorkerLoop env plan

/-- `copyRepository` (imagesync.go lines 161-255). Note the parameter
order of the Go signature: `destRepository` comes before
`srcRepository`. -/
def copyRepository (env : Env) (c : CliInput) (destRepository srcRepository : RefId) :
    RunResult :=
  match planTags env c destRepository srcRepository with
  | .error e => { outcome := .err e, copies := [], logs := [] }
  | .ok tags =>
    if tags.isEmpty then
      { outcome := .exited 0, copies := [], logs := [msgAlreadySynced] }
    else
      let r := runScheduler env (numberOfConcurrentTags c.MaxConcurrentTags tags.length) tags
      { outcome := r.1, copies := r.2, logs := [msgStartingSync] }

/-- `DetectAndCopyImage` (imagesync.go lines 94-159), translated branch by
branch. In the registry branch with a tagless source, the Go code reads

  if hasTag(c.Destination, destRef) \x7b
      if err = copyRepository(ctx, c, srcRef, destRef, opts); err != nil \x7b
      \x7d
      return fmt.Errorf("copy repository: %w", err)
  \x7d

so the repository sync runs only when the destination reference satisfies
`hasTag`, the inner `if` has an empty body, and the wrapping error is
returned unconditionally (also around a nil `err`, which still yields a
non-nil error value); when the destination does not satisfy `hasTag`,
control falls through to the final success log and `return nil` with no
copy performed. The call passes `srcRef` as the `destRepository` parameter
and `destRef` as the `srcRepository` parameter. -/
def DetectAndCopyImage (env : Env) (c : CliInput) : RunResult :=
  match env.destParse with
  | none => { outcome := .err msgParsingDestRef, copies := [], logs := [] }
  | some destRefStr =>
    match env.statSource with
    | some true =>
      if !env.ociLayoutParseOk then
        { outcome := .err msgParsingSourceOciRef, copies := [], logs := [] }
      else if env.ociLayoutCopyOk then
        { outcome := .ok, copies := [CopyCall.ociLayout], logs := [msgSyncCompleted] }
      else
        { outcome := .err msgCopyOciLayout, copies := [CopyCall.ociLayout], logs := [] }
    | some false =>
      if env.ociArchiveCopyOk then
        { outcome := .ok, copies := [CopyCall.ociArchive], logs := [msgSyncCompleted] }
      else if !env.dockerArchiveParseOk then
        { outcome := .err msgParsingDockerArchiveRef, copies := [CopyCall.ociArchive], logs := [] }
      else if env.dockerArchiveCopyOk then
        { outcome := .ok, copies := [CopyCall.ociArchive, CopyCall.dockerArchive],
          logs := [msgSyncCompleted] }
      else
        { outcome := .err msgCopyDockerArchive,
          copies := [CopyCall.ociArchive, CopyCall.dockerArchive], logs := [] }
    | none =>
      match env.srcParse with
      | none => { outcome := .err msgParsingSourceDockerRef, copies := [], logs := [] }
      | some srcRefStr =>
        if hasTag c.Source srcRefStr then
          if env.copySingleOk then
            { outcome := .ok, copies := [CopyCall.singleImage destRefStr srcRefStr],
              logs := [msgSyncCompleted] }
          else
            { outcome := .err msgCopyTag, copies := [CopyCall.singleImage destRefStr srcRefStr],
              logs := [] }
        else
          if hasTag c.Destination destRefStr then
            let r := copyRepository env c RefId.src RefId.dest
            match r.outcome with
            | .exited code => { outcome := .exited code, copies := r.copies, logs := r.logs }
            | _ => { outcome := .err msgCopyRepository, copies := r.copies, logs := r.logs }
          else
            { outcome := .ok, copies := [], logs := [msgSyncCompleted] }

/-- The exclude-list rule exactly as the spec words it (§4.2, first filter
stage): drop the tags named in the comma-separated skip list, when that
list is present. -/
def excludeListStage (c : CliInput) (tags : List String) : List String :=
  if c.SkipTags ≠ "" then subtract tags (splitString c.SkipTags ',') else tags

/-- The include-regex rule exactly as the spec words it (§4.2, second
filter stage): keep only the tags matching the include pattern, when that
pattern is present. -/
def includeRegexStage (env : Env) (c : CliInput) (tags : List String) :
    Except String (List String) :=
  if c.TagsPattern ≠ "" then
    match env.compileRegex c.TagsPattern with
    | none => .error msgInvalidRegexp
    | some re => .ok (tags.filter (fun item => re item))
  else .ok tags

/-- The exclude-regex rule exactly as the spec words it (§4.2, third
filter stage): remove the tags matching the exclude pattern, when that
pattern is present. -/
def excludeRegexStage (env : Env) (c : CliInput) (tags : List String) :
    Except String (List String) :=
  if c.SkipTagsPattern ≠ "" then
    match env.compileRegex c.SkipTagsPattern with
    | none => .error msgInvalidRegexp
    | some re => .ok (tags.filter (fun item => !(re item)))
  else .ok tags

/-- Whether a copy call is the single-image copy of the classifier's
`SingleImageSync` branch. -/
def isSingleImage : CopyCall → Bool
  | .singleImage _ _ => true
  | _ => false

/-- A neutral environment: every parse and copy succeeds, no repository
listing is available, no regex compiles. Concrete runs below override the
fields they exercise. -/
def envBase : Env :=
  { destParse := none
    statSource := none
    ociLayoutParseOk := true
    ociLayoutCopyOk := true
    ociArchiveCopyOk := true
    dockerArchiveParseOk := true
    dockerArchiveCopyOk := true
    srcParse := none
    listTags := fun _ => none
    compileRegex := fun _ => none
    copySingleOk := true
    parseDestTagOk := fun _ => true
    parseSrcTagOk := fun _ => true
    copyTagOk := fun _ => true }

/-- CLI input with the flag defaults of `Execute` (imagesync.go
lines 55-71): empty patterns, no overwrite, one concurrent tag. -/
def cBase : CliInput :=
  { Source := ""
    SourceStrictTLS := false
    Destination := ""
    DestinationStrictTLS := false
    TagsPattern := ""
    SkipTagsPattern := ""
    SkipTags := ""
    Overwrite := false
    MaxConcurrentTags := 1 }

/-- The README repository-sync example: tagless registry source and
tagless registry destination. -/
def cTagless : CliInput :=
  { cBase with Source := "library/alpine", Destination := "localhost:5000/library/alpine" }

/-- Environment for `cTagless`: the source is not a local path, both
references parse, and both repositories have a tag to sync. -/
def envTagless : Env :=
  { envBase with
    destParse := some (dockerNormalize "localhost:5000/library/alpine")
    srcParse := some (dockerNormalize "library/alpine")
    listTags := fun _ => some [("3")] }

/-- Tagless registry source and a destination that satisfies `hasTag`
(an explicitly tagged destination reference). -/
def cRepo : CliInput :=
  { cBase with Source := "library/alpine", Destination := "localhost:5000/alpine:3" }

/-- Environment for `cRepo`: the source repository holds tag `s1`, the
destination repository holds tag `d1`, and every per-tag copy succeeds. -/
def envRepo : Env :=
  { envBase with
    destParse := some (dockerNormalize "localhost:5000/alpine:3")
    srcParse := some (dockerNormalize "library/alpine")
    listTags := fun r => match r with
      | RefId.src => some [("s1")]
      | RefId.dest => some [("d1")] }

/-- `cRepo` with a configured concurrency of zero. -/
def cZero : CliInput :=
  { cRepo with MaxConcurrentTags := 0 }

/-- Registry source named `test`: a tagless repository reference whose
text is a suffix of its own normalized `...:latest` form. -/
def cC9 : CliInput :=
  { cBase with Source := "test", Destination := "example.com/mirror/test" }

/-- Environment for `cC9`: the source is not a local path and both
references parse to their normalized forms. -/
def envC9 : Env :=
  { envBase with
    destParse := some (dockerNormalize "example.com/mirror/test")
    srcParse := some (dockerNormalize "test") }

/-- Source repository with tags `b`, `a` (unsorted) and destination
repository with tag `a`. -/
def envDiffer : Env :=
  { envBase with
    listTags := fun r => match r with
      | RefId.src => some [("b"), ("a")]
      | RefId.dest => some [("a")] }

/-- `cBase` with the overwrite flag set. -/
def cOverwrite : CliInput :=
  { cBase with Overwrite := true }

/-- Source and destination repositories with the identical tag list. -/
def envSynced : Env :=
  { envBase with listTags := fun _ => some [("a")] }

theorem subtract_sublist (l d : List String) : List.Sublist (subtract l d) l :=
  List.filter_sublist l

theorem not_mem_of_mem_subtract {l d : List String} {t : String}
    (h : t ∈ subtract l d) : t ∉ d := by
  have := List.of_mem_filter h
  simpa using this

theorem runWorkerLoop_no_single_image (env : Env) (plan : List String) :
    ∀ call ∈ (runWorkerLoop env plan).2, isSingleImage call = false := by
  induction plan with
  | nil => intro call hc; simp [runWorkerLoop] at hc
  | cons t rest ih =>
    intro call hc
    unfold runWorkerLoop at hc
    cases hp : env.parseDestTagOk t <;> simp [hp] at hc
    cases hq : env.parseSrcTagOk t <;> simp [hq] at hc
    cases hr : env.copyTagOk t <;> simp [hr] at hc
    · subst hc; rfl
    · rcases hc with rfl | hc
      · rfl
      · exact ih call hc

theorem copyRepository_no_single_image (env : Env) (c : CliInput) (dR sR : RefId) :
    ∀ call ∈ (copyRepository env c dR sR).copies, isSingleImage call = false := by
  intro call hc
  unfold copyRepository at hc
  cases hpt : planTags env c dR sR with
  | error e => simp [hpt] at hc
  | ok tags =>
    simp only [hpt] at hc
    by_cases he : tags.isEmpty
    · simp [he] at hc
    · simp only [he, if_false, ite_false] at hc
      unfold runScheduler at hc
      by_cases hw : numberOfConcurrentTags c.MaxConcurrentTags tags.length ≤ 0
      · simp [hw] at hc
      · simp only [hw, if_false, ite_false] at hc
        exact runWorkerLoop_no_single_image env tags call hc

/-- C1: the claim states that a tagless registry source with a tagless
destination selects `RepositorySync` and performs the repository sync,
while a tagged destination yields a detection error with no copy
attempted. The code does the opposite of both halves: with a tagless
destination (the README repository-sync example) `DetectAndCopyImage`
performs no copy at all and returns `nil` with the success log, and with a
tagged destination it executes `copyRepository` and then returns the
`copy repository` error unconditionally. -/
theorem C1_code_evaluation :
    hasTag cTagless.Source (dockerNormalize ("library/alpine")) = false ∧
    hasTag cTagless.Destination (dockerNormalize ("localhost:5000/library/alpine")) = false ∧
    DetectAndCopyImage envTagless cTagless =
      { outcome := Outcome.ok, copies := [], logs := [msgSyncCompleted] } ∧
    hasTag cRepo.Destination (dockerNormalize ("localhost:5000/alpine:3")) = true ∧
    DetectAndCopyImage envRepo cRepo =
      { outcome := Outcome.err msgCopyRepository, copies := [CopyCall.tagCopy ("d1")],
        logs := [msgStartingSync] } :=
  ⟨rfl, rfl, rfl, rfl, rfl⟩

/-- C2: the claim states that source tags are listed at the source
endpoint and the subtracted set at the destination endpoint, never the
other way round. The call `copyRepository(ctx, c, srcRef, destRef, opts)`
binds `srcRef` to the `destRepository` parameter and `destRef` to the
`srcRepository` parameter, so with source tags `s1` and destination tags
`d1` the computed plan is `[d1]` — built from the destination listing with
the source listing subtracted — and the run copies tag `d1`. -/
theorem C2_listing_swapped :
    envRepo.listTags RefId.src = some [("s1")] ∧
    envRepo.listTags RefId.dest = some [("d1")] ∧
    planTags envRepo cRepo RefId.src RefId.dest = Except.ok [("d1")] ∧
    (DetectAndCopyImage envRepo cRepo).copies = [CopyCall.tagCopy ("d1")] :=
  ⟨rfl, rfl, rfl, rfl⟩

/-- C3: the claim states that a repository sync whose plan is non-empty
and whose per-tag copies all succeed ends with no error. In the code,
`copyRepository` indeed returns `nil` in that situation, but
`DetectAndCopyImage` wraps it in the `copy repository` error
unconditionally (the `err != nil` check at line 150 has an empty body and
the `return fmt.Errorf(...)` at line 152 runs regardless), so the
successful run is reported as a failure. -/
theorem C3_success_reported_as_error :
    (∀ t, envRepo.copyTagOk t = true) ∧
    copyRepository envRepo cRepo RefId.src RefId.dest =
      { outcome := Outcome.ok, copies := [CopyCall.tagCopy ("d1")],
        logs := [msgStartingSync] } ∧
    (DetectAndCopyImage envRepo cRepo).outcome = Outcome.err msgCopyRepository :=
  ⟨fun _ => rfl, rfl, rfl⟩

/-- C4: with `overwrite` false and a successful destination listing, the
plan is the filtered, sorted source list minus the destination tags: it is
disjoint from the destination tags and a sublist (hence an
order-preserving subset) of the filtered source list. -/
theorem C4_plan_disjoint_subset_ordered (env : Env) (c : CliInput) (dR sR : RefId)
    (raw F D : List String)
    (hsrc : env.listTags sR = some raw)
    (hF : applyFilters env c (sortTags raw) = Except.ok F)
    (hD : env.listTags dR = some D)
    (hov : c.Overwrite = false) :
    planTags env c dR sR = Except.ok (subtract F D) ∧
    (∀ t ∈ subtract F D, t ∉ D) ∧
    List.Sublist (subtract F D) F := by
  refine ⟨?_, fun t ht => not_mem_of_mem_subtract ht, subtract_sublist F D⟩
  simp [planTags, hsrc, hF, hD, hov]

theorem C4_witness :
    planTags envDiffer cBase RefId.dest RefId.src = Except.ok [("b")] :=
  (C4_plan_disjoint_subset_ordered envDiffer cBase RefId.dest RefId.src
    [("b"), ("a")] [("a"), ("b")] [("a")] rfl rfl rfl rfl).1

/-- C5: when `overwrite` is true or the destination tag listing fails, the
plan is exactly the filtered source tags; the listing failure is
recovered locally (the plan computation still returns `ok`), never
propagated as a failure. -/
theorem C5_overwrite_or_listing_failure (env : Env) (c : CliInput) (dR sR : RefId)
    (raw F : List String)
    (hsrc : env.listTags sR = some raw)
    (hF : applyFilters env c (sortTags raw) = Except.ok F)
    (h : c.Overwrite = true ∨ env.listTags dR = none) :
    planTags env c dR sR = Except.ok F := by
  rcases h with h | h
  · simp [planTags, hsrc, hF, h]
  · cases hov : c.Overwrite <;> simp [planTags, hsrc, hF, h, hov]

theorem C5_witness :
    planTags envDiffer cOverwrite RefId.dest RefId.src = Except.ok [("a"), ("b")] :=
  C5_overwrite_or_listing_failure envDiffer cOverwrite RefId.dest RefId.src
    [("b"), ("a")] [("a"), ("b")] rfl rfl (Or.inl rfl)

/-- C6: the filtering applied to the sorted source tag list is the
composition of the three rules in the fixed order exclude-list,
include-regex, exclude-regex, each stage acting only when its rule is
present. -/
theorem C6_filter_stage_order (env : Env) (c : CliInput) (raw : List String) :
    applyFilters env c (sortTags raw) =
      (match includeRegexStage env c (excludeListStage c (sortTags raw)) with
       | Except.error e => Except.error e
       | Except.ok tags2 => excludeRegexStage env c tags2) := by
  generalize sortTags raw = tags0
  by_cases h1 : c.TagsPattern ≠ "" <;> by_cases h2 : c.SkipTagsPattern ≠ "" <;>
    cases hre : env.compileRegex c.TagsPattern <;>
    cases hre2 : env.compileRegex c.SkipTagsPattern <;>
    simp [applyFilters, excludeListStage, includeRegexStage, excludeRegexStage,
      h1, h2, hre, hre2]

/-- C7 counterexample: the claim states that a configured
`maxConcurrentTags` of `0` is rejected as a configuration error when the
plan is non-empty. With a one-tag plan and `MaxConcurrentTags = 0`,
`copyRepository` instead completes with no error and no worker: no copy
is attempted and the outcome is plain success. -/
theorem C7_counterexample :
    cZero.MaxConcurrentTags = 0 ∧
    planTags envRepo cZero RefId.src RefId.dest = Except.ok [("d1")] ∧
    copyRepository envRepo cZero RefId.src RefId.dest =
      { outcome := Outcome.ok, copies := [], logs := [msgStartingSync] } :=
  ⟨rfl, rfl, rfl⟩

/-- C7 amended: for every plan the number of workers the loop starts is
`max 0 (min configuredMax (len plan))`, and a configured maximum of `0` or
negative is silently accepted — the scheduler then starts no worker and
returns success with no copy attempted. -/
theorem C7_amended_worker_count (maxC : Int) (plan : List String) (env : Env)
    (_h : plan ≠ []) :
    ((startedWorkers (numberOfConcurrentTags maxC plan.length)) : Int) =
      max 0 (min maxC (plan.length : Int)) ∧
    (maxC ≤ 0 →
      runScheduler env (numberOfConcurrentTags maxC plan.length) plan = (Outcome.ok, [])) := by
  constructor
  · unfold startedWorkers numberOfConcurrentTags
    split <;> omega
  · intro hm
    have hle : numberOfConcurrentTags maxC plan.length ≤ 0 := by
      unfold numberOfConcurrentTags
      split <;> omega
    unfold runScheduler
    rw [if_pos hle]

theorem C7_amended_witness :
    ((startedWorkers (numberOfConcurrentTags 0 ([("a")] : List String).length)) : Int) =
      max 0 (min 0 (([("a")] : List String).length : Int)) ∧
    runScheduler envBase (numberOfConcurrentTags 0 ([("a")] : List String).length) [("a")] =
      (Outcome.ok, []) :=
  ⟨(C7_amended_worker_count 0 [("a")] envBase (by simp)).1,
   (C7_amended_worker_count 0 [("a")] envBase (by simp)).2 (by omega)⟩

/-- C8: an empty plan on the repository path is a success outcome —
`copyRepository` logs the distinct already-in-sync message and terminates
the process with exit status 0 before the scheduler is built, so no
per-tag copy call is performed and no error is produced. -/
theorem C8_empty_plan_success (env : Env) (c : CliInput) (dR sR : RefId)
    (h : planTags env c dR sR = Except.ok []) :
    copyRepository env c dR sR =
      { outcome := Outcome.exited 0, copies := [], logs := [msgAlreadySynced] } ∧
    ∀ msg, (copyRepository env c dR sR).outcome ≠ Outcome.err msg := by
  have hrep : copyRepository env c dR sR =
      { outcome := Outcome.exited 0, copies := [], logs := [msgAlreadySynced] } := by
    simp [copyRepository, h]
  exact ⟨hrep, fun msg => by rw [hrep]; simp⟩

theorem C8_witness :
    copyRepository envSynced cBase RefId.src RefId.dest =
      { outcome := Outcome.exited 0, copies := [], logs := [msgAlreadySynced] } :=
  (C8_empty_plan_success envSynced cBase RefId.src RefId.dest rfl).1

/-- C9 counterexample: the claim states that single-image mode is selected
iff the registry reference carries an explicit tag, and that a tagless
repository reference is never treated as a single tagged image. The
tagless source `test` (it contains no colon at all) normalizes to
`docker.io/library/test:latest`, which ends with `test`, so `hasTag`
reports true and the run performs a single-image copy. -/
theorem C9_counterexample :
    containsChar ("test") ':' = false ∧
    dockerNormalize ("test") = "docker.io/library/test:latest" ∧
    hasTag cC9.Source (dockerNormalize ("test")) = true ∧
    DetectAndCopyImage envC9 cC9 =
      { outcome := Outcome.ok,
        copies := [CopyCall.singleImage ("example.com/mirror/test:latest")
          ("docker.io/library/test:latest")],
        logs := [msgSyncCompleted] } :=
  ⟨rfl, rfl, rfl, rfl⟩

/-- C9 amended: on the registry branch (source not a local path, both
references parse), a single-image copy is attempted iff the normalized
source reference string ends with the original source string (`hasTag`).
This selects single-image mode for explicitly tagged references whose
normalization keeps their tail intact, but also for tagless references
whose text is a suffix of their normalized `:latest` form, such as
`test`. -/
theorem C9_amended_suffix_detection (env : Env) (c : CliInput) (destStr srcStr : String)
    (h1 : env.destParse = some destStr)
    (h2 : env.statSource = none)
    (h3 : env.srcParse = some srcStr) :
    ((DetectAndCopyImage env c).copies.any isSingleImage) = hasTag c.Source srcStr := by
  unfold DetectAndCopyImage
  simp only [h1, h2, h3]
  cases hs : hasTag c.Source srcStr
  · cases hd : hasTag c.Destination destStr
    · simp
    · have hall := copyRepository_no_single_image env c RefId.src RefId.dest
      simp only [show ((true : Bool) = true) = True by simp,
        show ((false : Bool) = true) = False by simp, if_true, if_false, ite_true, ite_false]
      rw [List.any_eq_false]
      intro x hx
      cases ho : (copyRepository env c RefId.src RefId.dest).outcome <;>
        rw [ho] at hx <;> simp [hall x hx]
  · simp only [show ((true : Bool) = true) = True by simp, if_true, ite_true]
    cases hcs : env.copySingleOk <;> simp [hcs, isSingleImage]

theorem C9_amended_witness :
    ((DetectAndCopyImage envC9 cC9).copies.any isSingleImage) =
      hasTag cC9.Source (dockerNormalize ("test")) :=
  C9_amended_suffix_detection envC9 cC9 (dockerNormalize ("example.com/mirror/test"))
    (dockerNormalize ("test")) rfl rfl rfl

/-- C10: each side's TLS context depends only on its own strict-TLS flag:
when the flag is false (its default) the copy options carry a system
context with `DockerInsecureSkipTLSVerify` set, and when it is true no
context is configured for that side. -/
theorem C10_tls_contexts (c : CliInput) :
    (mkCopyOptions c).DestinationCtx =
      (if c.DestinationStrictTLS then none
       else some { DockerInsecureSkipTLSVerify := true }) ∧
    (mkCopyOptions c).SourceCtx =
      (if c.SourceStrictTLS then none
       else some { DockerInsecureSkipTLSVerify := true }) := by
  cases hd : c.DestinationStrictTLS <;> cases hs : c.SourceStrictTLS <;>
    simp [mkCopyOptions, hd, hs]

end Imagesync
